import Mathlib

/-!
Shallow embedding of the Conan recipe of the gobdevel/base repository
(src/conanfile.py and src/test_package/conanfile.py): the option model,
the constraint hooks config_options and configure, the requirements
list, the generated CMake toolchain variables, the build lifecycle and
the test-package validation step.
-/

/-- The six option names declared in baseRecipe.options. -/
inductive OptName
  | shared
  | fPIC
  | with_tests
  | with_benchmarks
  | with_examples
  | with_docs
deriving DecidableEq, Repr

/-- The option container of the recipe: each declared option either holds a
value (some b) or has been removed by rm_safe (none).  In the recipe only
fPIC is ever removed, the other five options always stay present. -/
structure OptionsState where
  shared : Option Bool
  fPIC : Option Bool
  with_tests : Option Bool
  with_benchmarks : Option Bool
  with_examples : Option Bool
  with_docs : Option Bool
deriving DecidableEq, Repr

/-- Read one option from the container. -/
def OptionsState.get (s : OptionsState) : OptName → Option Bool
  | .shared => s.shared
  | .fPIC => s.fPIC
  | .with_tests => s.with_tests
  | .with_benchmarks => s.with_benchmarks
  | .with_examples => s.with_examples
  | .with_docs => s.with_docs

/-- Assign one option in the container. -/
def OptionsState.set (s : OptionsState) (n : OptName) (v : Option Bool) : OptionsState :=
  match n with
  | .shared => { s with shared := v }
  | .fPIC => { s with fPIC := v }
  | .with_tests => { s with with_tests := v }
  | .with_benchmarks => { s with with_benchmarks := v }
  | .with_examples => { s with with_examples := v }
  | .with_docs => { s with with_docs := v }

/-- rm_safe: remove an option from the container; removing an option that is
already absent is a no-op rather than an error. -/
def OptionsState.rm_safe (s : OptionsState) (n : OptName) : OptionsState :=
  s.set n none

/-- Truthiness of a present option value, as Python evaluates
`if self.options.x:` for a boolean option (False is falsy).  The recipe only
reads options that are never removed, so the none case never arises on the
states the recipe produces. -/
def Options.truthy : Option Bool → Bool
  | some b => b
  | none => false

/-- baseRecipe.default_options. -/
def default_options : OptionsState :=
  { shared := some false
    fPIC := some true
    with_tests := some false
    with_benchmarks := some false
    with_examples := some false
    with_docs := some false }

/-- The allowed value domain of each option, as declared in
baseRecipe.options: every option admits exactly True and False (override
values arrive as strings on the invoker surface). -/
def optionDomain : OptName → List String :=
  fun _ => ["True", "False"]

/-- The error raised when an invoker override names a value outside the
declared domain of the option. -/
inductive ResolveError
  | InvalidOptionValue (name : OptName) (value : String)
deriving DecidableEq, Repr

/-- Apply invoker overrides to the option container in order, checking each
value against the domain of its option; the first out-of-domain value aborts
with InvalidOptionValue. -/
def applyOverrides : OptionsState → List (OptName × String) → Except ResolveError OptionsState
  | s, [] => .ok s
  | s, (n, v) :: rest =>
    if v ∈ optionDomain n then
      applyOverrides (s.set n (some (v == "True"))) rest
    else
      .error (.InvalidOptionValue n v)

/-- baseRecipe.config_options: on Windows the fPIC option is removed. -/
def config_options (os : String) (s : OptionsState) : OptionsState :=
  if os = "Windows" then s.rm_safe .fPIC else s

/-- baseRecipe.configure: when shared is enabled the fPIC option is
removed. -/
def configure (s : OptionsState) : OptionsState :=
  if Options.truthy s.shared then s.rm_safe .fPIC else s

/-- Modelled from the spec: the framework invokes the constraint hooks of
the recipe in a fixed order, the platform hook config_options first, then
the mutual-exclusion hook configure.  Only the hook bodies live in
src/conanfile.py; their calling order is framework behaviour. -/
def constraintHooks (os : String) : List (OptionsState → OptionsState) :=
  [config_options os, configure]

/-- Run a list of constraint hooks left to right over the container. -/
def applyHooks (s : OptionsState) (hooks : List (OptionsState → OptionsState)) : OptionsState :=
  hooks.foldl (fun t h => h t) s

/-- Option resolution: defaults, then invoker overrides, then the constraint
hooks in framework order. -/
def resolve (overrides : List (OptName × String)) (os : String) : Except ResolveError OptionsState :=
  match applyOverrides default_options overrides with
  | .error e => .error e
  | .ok s => .ok (applyHooks s (constraintHooks os))

/-- Modelled from the spec: resolution as the spec words it, start from
declared defaults, apply overrides, then apply the platform constraint,
then the mutual-exclusion constraint. -/
def resolve_spec (overrides : List (OptName × String)) (os : String) : Except ResolveError OptionsState :=
  match applyOverrides default_options overrides with
  | .error e => .error e
  | .ok s => .ok (configure (config_options os s))

/-- Success test for a resolution outcome. -/
def exceptOk : Except ResolveError OptionsState → Bool
  | .ok _ => true
  | .error _ => false

/-- One dependency requirement: name, exact version, whether its headers
propagate to consumers (transitive_headers), and whether it was declared
through test_requires rather than requires. -/
structure Dependency where
  name : String
  version : String
  transitive_headers : Bool
  test_only : Bool
deriving DecidableEq, Repr

/-- requires spdlog/1.15.3 with transitive_headers=True. -/
def spdlogDep : Dependency :=
  { name := "spdlog", version := "1.15.3", transitive_headers := true, test_only := false }

/-- requires tomlplusplus/3.4.0 with transitive_headers=True. -/
def tomlplusplusDep : Dependency :=
  { name := "tomlplusplus", version := "3.4.0", transitive_headers := true, test_only := false }

/-- requires asio/1.34.2 with transitive_headers=True. -/
def asioDep : Dependency :=
  { name := "asio", version := "1.34.2", transitive_headers := true, test_only := false }

/-- requires nlohmann_json/3.11.3 with transitive_headers=True. -/
def nlohmannJsonDep : Dependency :=
  { name := "nlohmann_json", version := "3.11.3", transitive_headers := true, test_only := false }

/-- test_requires gtest/1.16.0. -/
def gtestDep : Dependency :=
  { name := "gtest", version := "1.16.0", transitive_headers := false, test_only := true }

/-- test_requires benchmark/1.9.1. -/
def benchmarkDep : Dependency :=
  { name := "benchmark", version := "1.9.1", transitive_headers := false, test_only := true }

/-- The four unconditional requirements of baseRecipe.requirements, in
declaration order. -/
def baseDeps : List Dependency :=
  [spdlogDep, tomlplusplusDep, asioDep, nlohmannJsonDep]

/-- baseRecipe.requirements: the four unconditional requires calls in
declaration order, then gtest when with_tests holds, then benchmark when
with_benchmarks holds. -/
def requirements (s : OptionsState) : List Dependency :=
  baseDeps
    ++ (if Options.truthy s.with_tests then [gtestDep] else [])
    ++ (if Options.truthy s.with_benchmarks then [benchmarkDep] else [])

/-- Assign one toolchain variable, as `tc.variables[k] = v` does. -/
def setVar (vars : List (String × Bool)) (k : String) (v : Bool) : List (String × Bool) :=
  vars ++ [(k, v)]

/-- baseRecipe.generate: the toolchain variable assignments, in program
order. -/
def generate (s : OptionsState) : List (String × Bool) :=
  let tc := []
  let tc := setVar tc "CMAKE_EXPORT_COMPILE_COMMANDS" true
  let tc := setVar tc "BUILD_TESTING" (Options.truthy s.with_tests)
  let tc := setVar tc "BUILD_BENCHMARK" (Options.truthy s.with_benchmarks)
  let tc := setVar tc "BUILD_EXAMPLE" (Options.truthy s.with_examples)
  let tc := setVar tc "BUILD_DOCS" (Options.truthy s.with_docs)
  tc

/-- Modelled from the spec: the ordered lifecycle stages of one invocation.
Only the Configure-then-Build pair inside baseRecipe.build lives in
src/conanfile.py; the full stage sequence is framework behaviour. -/
inductive LifecycleStage
  | Configure
  | Generate
  | Build
  | Test
  | Package
deriving DecidableEq, Repr

/-- Modelled from the spec: the stage order of one invocation, with the
Test stage present exactly when its precondition (tests resolved on and no
skip-tests directive) holds. -/
def lifecycleStages (testActive : Bool) : List LifecycleStage :=
  [.Configure, .Generate, .Build]
    ++ (if testActive then [.Test] else [])
    ++ [.Package]

/-- Modelled from the spec: the Test stage precondition, the resolved
with_tests option is on and no external skip-tests directive is set. -/
def testingActive (s : OptionsState) (skip_tests : Bool) : Bool :=
  Options.truthy s.with_tests && !skip_tests

/-- Modelled from the spec: run the given stages strictly in order against
the exit status of the external tool at each stage; a non-zero status stops
the run.  Returns the stages that actually executed and the failing stage,
none on success. -/
def runStages (status : LifecycleStage → Nat) : List LifecycleStage → List LifecycleStage × Option LifecycleStage
  | [] => ([], none)
  | st :: rest =>
    if status st = 0 then
      let r := runStages status rest
      (st :: r.1, r.2)
    else
      ([st], some st)

/-- Modelled from the spec: run one whole invocation. -/
def runLifecycle (testActive : Bool) (status : LifecycleStage → Nat) : List LifecycleStage × Option LifecycleStage :=
  runStages status (lifecycleStages testActive)

/-- One external command run by the test-package recipe. -/
structure RunAction where
  cmd : String
  env : String
deriving DecidableEq, Repr

/-- baseTestConan.test: commands actually executed, the consumer binary is
run only when the environment can run target binaries. -/
def testPackageActions (can_run : Bool) (bindir : String) : List RunAction :=
  if can_run then [{ cmd := bindir ++ "/example", env := "conanrun" }] else []

/-- baseTestConan.test outcome: when can_run holds, self.run requires exit
code zero and a non-zero code fails the invocation; otherwise the step is
skipped and succeeds. -/
def testPackageOutcome (can_run : Bool) (exit_code : Nat) : Except Nat Unit :=
  if can_run then (if exit_code = 0 then .ok () else .error exit_code) else .ok ()

/-- The configuration resolved from no overrides on Linux. -/
def defaultLinuxResolved : OptionsState :=
  { shared := some false, fPIC := some true, with_tests := some false,
    with_benchmarks := some false, with_examples := some false, with_docs := some false }

/-- The configuration resolved from the single override shared=True on
Linux. -/
def sharedLinuxResolved : OptionsState :=
  { shared := some true, fPIC := none, with_tests := some false,
    with_benchmarks := some false, with_examples := some false, with_docs := some false }

/-- The configuration resolved from the single override fPIC=True on
Windows. -/
def fPICWindowsResolved : OptionsState :=
  { shared := some false, fPIC := none, with_tests := some false,
    with_benchmarks := some false, with_examples := some false, with_docs := some false }

/-- A configuration with tests enabled and benchmarks disabled. -/
def testsOnState : OptionsState :=
  { shared := some false, fPIC := some true, with_tests := some true,
    with_benchmarks := some false, with_examples := some false, with_docs := some false }

theorem truthy_iff (o : Option Bool) : Options.truthy o = true ↔ o = some true := by
  cases o with
  | none => simp [Options.truthy]
  | some b => cases b <;> simp [Options.truthy]

theorem config_options_shared (os : String) (s : OptionsState) :
    (config_options os s).shared = s.shared := by
  unfold config_options
  split <;> rfl

theorem configure_shared (s : OptionsState) :
    (configure s).shared = s.shared := by
  unfold configure
  split <;> rfl

theorem configure_shared_fPIC (s : OptionsState)
    (h : (configure s).shared = some true) : (configure s).fPIC = none := by
  unfold configure at h ⊢
  by_cases hs : Options.truthy s.shared
  · simp [hs, OptionsState.rm_safe, OptionsState.set]
  · simp [hs] at h ⊢
    rw [h] at hs
    simp [Options.truthy] at hs

theorem configure_fPIC_none (s : OptionsState)
    (h : s.fPIC = none) : (configure s).fPIC = none := by
  unfold configure
  split
  · simp [OptionsState.rm_safe, OptionsState.set]
  · exact h

theorem resolve_ok_shape (overrides : List (OptName × String)) (os : String) (s : OptionsState)
    (h : resolve overrides os = .ok s) :
    ∃ s0, applyOverrides default_options overrides = .ok s0 ∧
      s = configure (config_options os s0) := by
  unfold resolve at h
  cases happ : applyOverrides default_options overrides with
  | error e => rw [happ] at h; exact absurd h (by simp)
  | ok s0 =>
    rw [happ] at h
    simp only [Except.ok.injEq] at h
    exact ⟨s0, rfl, h.symm⟩

theorem gtest_notin_baseDeps : gtestDep ∉ baseDeps := by decide

theorem benchmark_notin_baseDeps : benchmarkDep ∉ baseDeps := by decide

theorem gtest_ne_benchmark : gtestDep ≠ benchmarkDep := by decide

theorem applyOverrides_isOk (o : List (OptName × String)) (s : OptionsState) :
    exceptOk (applyOverrides s o) = o.all (fun p => decide (p.2 ∈ optionDomain p.1)) := by
  induction o generalizing s with
  | nil => rfl
  | cons p rest ih =>
    obtain ⟨n, v⟩ := p
    by_cases h : v ∈ optionDomain n
    · simp only [applyOverrides, if_pos h, ih]
      simp [h]
    · simp only [applyOverrides, if_neg h]
      simp [exceptOk, h]

/-- C1 counterexample: with no overrides on Linux the code resolves
with_tests, with_benchmarks and with_examples to False, not True as the
claim states; neither the gtest nor the benchmark dependency is in the
resolved list and the Testing stage precondition is off. -/
theorem c1_defaults_linux_counterexample :
    resolve [] "Linux" = .ok defaultLinuxResolved ∧
    ¬ (defaultLinuxResolved.with_tests = some true) ∧
    ¬ (defaultLinuxResolved.with_benchmarks = some true) ∧
    ¬ (defaultLinuxResolved.with_examples = some true) ∧
    gtestDep ∉ requirements defaultLinuxResolved ∧
    benchmarkDep ∉ requirements defaultLinuxResolved ∧
    testingActive defaultLinuxResolved false = false :=
  ⟨rfl, by decide, by decide, by decide, by decide, by decide, rfl⟩

/-- C1 (amended): with no overrides on Linux the resolved configuration is
shared=false, fPIC=true, with_tests=false, with_benchmarks=false,
with_examples=false; the resolved dependency list is exactly the four base
library dependencies, and the Testing stage does not run. -/
theorem c1_defaults_linux_amended :
    resolve [] "Linux" = .ok defaultLinuxResolved ∧
    defaultLinuxResolved.shared = some false ∧
    defaultLinuxResolved.fPIC = some true ∧
    defaultLinuxResolved.with_tests = some false ∧
    defaultLinuxResolved.with_benchmarks = some false ∧
    defaultLinuxResolved.with_examples = some false ∧
    requirements defaultLinuxResolved = baseDeps ∧
    LifecycleStage.Test ∉ lifecycleStages (testingActive defaultLinuxResolved false) :=
  ⟨rfl, rfl, rfl, rfl, rfl, rfl, by decide, by decide⟩

/-- C2: for every override set and platform, whenever the resolved
configuration has shared enabled the fPIC option is absent from it, so no
resolved configuration ever has both shared and fPIC enabled. -/
theorem shared_excludes_fPIC (overrides : List (OptName × String)) (os : String) (s : OptionsState)
    (h : resolve overrides os = .ok s) :
    (s.shared = some true → s.fPIC = none) ∧ ¬ (s.shared = some true ∧ s.fPIC = some true) := by
  obtain ⟨s0, -, hs⟩ := resolve_ok_shape overrides os s h
  subst hs
  constructor
  · exact configure_shared_fPIC _
  · rintro ⟨h1, h2⟩
    rw [configure_shared_fPIC _ h1] at h2
    exact Option.noConfusion h2

theorem shared_excludes_fPIC_witness :
    resolve [(.shared, "True")] "Linux" = .ok sharedLinuxResolved ∧
    ((sharedLinuxResolved.shared = some true → sharedLinuxResolved.fPIC = none) ∧
      ¬ (sharedLinuxResolved.shared = some true ∧ sharedLinuxResolved.fPIC = some true)) :=
  ⟨rfl, shared_excludes_fPIC [(.shared, "True")] "Linux" sharedLinuxResolved rfl⟩

/-- C3: for every override set, resolution on Windows leaves the fPIC
option absent from the resolved configuration, whatever the invoker set
for fPIC. -/
theorem windows_removes_fPIC (overrides : List (OptName × String)) (s : OptionsState)
    (h : resolve overrides "Windows" = .ok s) : s.fPIC = none := by
  obtain ⟨s0, -, hs⟩ := resolve_ok_shape overrides "Windows" s h
  subst hs
  apply configure_fPIC_none
  unfold config_options
  simp [OptionsState.rm_safe, OptionsState.set]

theorem windows_removes_fPIC_witness :
    resolve [(.fPIC, "True")] "Windows" = .ok fPICWindowsResolved ∧
    fPICWindowsResolved.fPIC = none :=
  ⟨rfl, windows_removes_fPIC [(.fPIC, "True")] fPICWindowsResolved rfl⟩

/-- C4: for every configuration, gtest/1.16.0 is in the dependency list
exactly when with_tests is true, and benchmark/1.9.1 is in it exactly when
with_benchmarks is true. -/
theorem dep_activation (s : OptionsState) :
    (gtestDep ∈ requirements s ↔ s.with_tests = some true) ∧
    (benchmarkDep ∈ requirements s ↔ s.with_benchmarks = some true) := by
  by_cases h1 : Options.truthy s.with_tests = true <;>
    by_cases h2 : Options.truthy s.with_benchmarks = true <;>
      simp [requirements, h1, h2, ← truthy_iff, gtest_notin_baseDeps,
        benchmark_notin_baseDeps, gtest_ne_benchmark, gtest_ne_benchmark.symm]

theorem dep_activation_witness :
    (gtestDep ∈ requirements testsOnState ↔ testsOnState.with_tests = some true) ∧
    (benchmarkDep ∈ requirements testsOnState ↔ testsOnState.with_benchmarks = some true) :=
  dep_activation testsOnState

/-- C5: for every configuration the generated toolchain variables carry
exactly the five keys in program order, the compile-commands export flag
set to true, and one flag per subsystem equal to the value of the matching
resolved option. -/
theorem generate_vars (s : OptionsState) :
    (generate s).map Prod.fst =
      ["CMAKE_EXPORT_COMPILE_COMMANDS", "BUILD_TESTING", "BUILD_BENCHMARK",
        "BUILD_EXAMPLE", "BUILD_DOCS"] ∧
    (generate s).lookup "CMAKE_EXPORT_COMPILE_COMMANDS" = some true ∧
    (generate s).lookup "BUILD_TESTING" = some (Options.truthy s.with_tests) ∧
    (generate s).lookup "BUILD_BENCHMARK" = some (Options.truthy s.with_benchmarks) ∧
    (generate s).lookup "BUILD_EXAMPLE" = some (Options.truthy s.with_examples) ∧
    (generate s).lookup "BUILD_DOCS" = some (Options.truthy s.with_docs) :=
  ⟨rfl, rfl, rfl, rfl, rfl, rfl⟩

/-- C6: for every configuration the dependency list starts with the four
unconditional dependencies in declaration order, every one of them keeps
transitive_headers, and a dependency is in the list exactly when it is one
of the four or its activating option holds. -/
theorem requirements_shape (s : OptionsState) (d : Dependency) :
    (requirements s).take 4 = baseDeps ∧
    (∀ d2 ∈ baseDeps, d2.transitive_headers = true) ∧
    (d ∈ requirements s ↔
      (d ∈ baseDeps ∨ (d = gtestDep ∧ s.with_tests = some true) ∨
        (d = benchmarkDep ∧ s.with_benchmarks = some true))) := by
  refine ⟨?_, by decide, ?_⟩ <;>
    by_cases h1 : Options.truthy s.with_tests = true <;>
      by_cases h2 : Options.truthy s.with_benchmarks = true <;>
        simp [requirements, h1, h2, ← truthy_iff] <;>
          decide

theorem requirements_shape_witness :
    (requirements testsOnState).take 4 = baseDeps ∧
    (∀ d2 ∈ baseDeps, d2.transitive_headers = true) ∧
    (gtestDep ∈ requirements testsOnState ↔
      (gtestDep ∈ baseDeps ∨ (gtestDep = gtestDep ∧ testsOnState.with_tests = some true) ∨
        (gtestDep = benchmarkDep ∧ testsOnState.with_benchmarks = some true))) :=
  requirements_shape testsOnState gtestDep

/-- C7: whenever the external tool reports a non-zero status for the
Configure stage, the invocation executes the Configure stage alone, the
later stages never run, and the reported failing stage is exactly
Configure. -/
theorem configure_failure_short_circuits (testActive : Bool) (status : LifecycleStage → Nat)
    (h : status .Configure ≠ 0) :
    runLifecycle testActive status = ([.Configure], some .Configure) := by
  cases testActive <;> simp [runLifecycle, lifecycleStages, runStages, h]

theorem configure_failure_short_circuits_witness :
    ((fun _ => (1 : Nat)) : LifecycleStage → Nat) LifecycleStage.Configure ≠ 0 ∧
    runLifecycle true (fun _ => (1 : Nat)) =
      ([LifecycleStage.Configure], some LifecycleStage.Configure) :=
  ⟨by decide, configure_failure_short_circuits true (fun _ => (1 : Nat)) (by decide)⟩

/-- C8: the consumer binary is executed exactly when the environment can
run target binaries; when it cannot, the step runs no command and succeeds,
and when it can, the step succeeds exactly when the binary exits with
code zero. -/
theorem test_package_can_run_policy (can_run : Bool) (bindir : String) (exit_code : Nat) :
    (testPackageActions can_run bindir ≠ [] ↔ can_run = true) ∧
    (can_run = false → testPackageOutcome can_run exit_code = .ok ()) ∧
    (can_run = true → (testPackageOutcome can_run exit_code = .ok () ↔ exit_code = 0)) := by
  cases can_run <;> by_cases h : exit_code = 0 <;>
    simp [testPackageActions, testPackageOutcome, h]

theorem test_package_can_run_policy_witness :
    (testPackageActions false "bin" ≠ [] ↔ false = true) ∧
    (false = false → testPackageOutcome false 7 = .ok ()) ∧
    (false = true → (testPackageOutcome false 7 = .ok () ↔ 7 = 0)) :=
  test_package_can_run_policy false "bin" 7

/-- C9: for every override set and platform, resolution equals the pipeline
the spec words demand, overridden defaults passed first through the
platform constraint and then through the mutual-exclusion constraint. -/
theorem constraint_order (overrides : List (OptName × String)) (os : String) :
    resolve overrides os = resolve_spec overrides os := by
  unfold resolve resolve_spec
  cases applyOverrides default_options overrides <;> rfl

/-- C10: resolution succeeds exactly when every override value lies in the
domain of its option, so constraint application itself never fails; in
particular with shared=True on Windows both constraints remove fPIC, the
second removal landing on an already-removed option, and resolution still
completes. -/
theorem constraint_application_total (overrides : List (OptName × String)) (os : String) :
    exceptOk (resolve overrides os) =
      overrides.all (fun p => decide (p.2 ∈ optionDomain p.1)) ∧
    resolve [(.shared, "True")] "Windows" =
      .ok { shared := some true, fPIC := none, with_tests := some false,
            with_benchmarks := some false, with_examples := some false,
            with_docs := some false } := by
  constructor
  · rw [← applyOverrides_isOk overrides default_options]
    unfold resolve
    cases applyOverrides default_options overrides <;> rfl
  · rfl
